import Mathlib

/-!
Verification of the lazypdf page-rasterization core against its
natural-language specification.

The development shallowly embeds the Go/C sources:

* `scalePage`      — faster_raster.go `(*Rasterizer).scalePage`
* `saveToPngScaleFactor` — main.c `save_to_png` scale-resolution block
* `calculateScaleForDocument`, `nextScaleFactor` — the per-document
  scale cache of the earlier rasterizer revision
* `runCancellableOperation`, `processOne`, `backgroundRender`,
  `renderToSVG` — requests are modelled as an environment of outcomes
  for each fallible native step, and the functions produce the ordered
  trace of native-resource events and reply attempts the Go code performs
* `stopStep` / `loopQuitStep` — the `Stop`/event-loop shutdown protocol
  on the quit channel
* `SaveToPNG` / `PageCount` — the one-shot cgo wrappers of main.go

Machine floats in the source are modelled as rationals, so equalities on
scale factors hold up to native floating-point rounding.
-/

namespace Lazypdf

/-- Scale constant for landscape pages (faster_raster.go `LandscapeScale = 1.0`). -/
def LandscapeScale : ℚ := 1

/-- Scale constant for portrait pages (faster_raster.go `PortraitScale = 1.5`). -/
def PortraitScale : ℚ := 3 / 2

/-- The MuPDF `fz_rect` bounding rectangle, with float fields modelled as ℚ. -/
structure FzRect where
  x0 : ℚ
  x1 : ℚ
  y0 : ℚ
  y1 : ℚ
deriving DecidableEq, Repr

/-- The width/scale pair carried on a `RasterRequest` (`req.Width`, `req.Scale`). -/
structure ScaleReq where
  width : ℤ
  scale : ℚ
deriving DecidableEq, Repr

/-- Embeds faster_raster.go `(*Rasterizer).scalePage`. `req = none` corresponds to
the Go call with a nil request (from `calculateScaleForDocument`); `rotation` is
the value the native `get_rotation` returns for the page (the raw, un-normalized
`/Rotate` entry, queried only in the landscape branch). -/
def scalePage (rotation : ℤ) (bounds : FzRect) (req : Option ScaleReq) : ℚ :=
  let heuristic :=
    if bounds.y1 - bounds.y0 < bounds.x1 - bounds.x0 then
      if rotation ≠ 0 ∧ rotation ≠ 180 then PortraitScale else LandscapeScale
    else PortraitScale
  match req with
  | some q =>
      if q.width ≠ 0 then (q.width : ℚ) / bounds.x1
      else if q.scale ≠ 0 then q.scale
      else heuristic
  | none => heuristic

/-- Embeds the scale-resolution block of main.c `save_to_png` (the
`scale_factor` computation): width, then scale, then the orientation/rotation
heuristic with `1.5` as the initial default. -/
def saveToPngScaleFactor (rotation : ℤ) (width : ℤ) (scale : ℚ) (bounds : FzRect) : ℚ :=
  if width ≠ 0 then (width : ℚ) / bounds.x1
  else if scale ≠ 0 then scale
  else if bounds.x1 - bounds.x0 > bounds.y1 - bounds.y0 then
    if rotation = 0 ∨ rotation = 180 then 1 else 3 / 2
  else 3 / 2

/-- The pure effect of MuPDF `fz_transform_rect` with the matrix
`fz_scale s s`: every coordinate is multiplied by `s` (modelled behavior of
the external native library; the subsequent `fz_round_rect` is the native
rounding step the claims allow for). -/
def transformRectScale (s : ℚ) (b : FzRect) : FzRect :=
  ⟨b.x0 * s, b.x1 * s, b.y0 * s, b.y1 * s⟩

/-- A page as the scale heuristic sees it: its un-transformed bounding box and
the raw rotation value `get_rotation` reports. -/
structure PageDesc where
  bounds : FzRect
  rotation : ℤ
deriving DecidableEq, Repr

/-- Embeds the earlier-revision `(*Rasterizer).calculateScaleForDocument`:
walk the pages in order, set the cached factor to the per-page heuristic
(`scalePage` with a nil request), and break as soon as it comes out
`LandscapeScale`. `s` is the current value of `r.scaleFactor` (unchanged when
the document list is empty). Pages whose native load fails are skipped by the
Go loop and are simply absent from `doc`. -/
def calculateScaleForDocument (doc : List PageDesc) (s : ℚ) : ℚ :=
  match doc with
  | [] => s
  | p :: rest =>
      let s1 := scalePage p.rotation p.bounds none
      if s1 = LandscapeScale then s1 else calculateScaleForDocument rest s1

/-- Embeds the scale-cache update of the earlier-revision `processOne`
(the `if r.scaleFactor == 0 && req.Width == 0 && req.Scale == 0` branch):
the returned value is the new `r.scaleFactor`, which is also the scale used to
render this request. `page` is the page loaded for the request. -/
def nextScaleFactor (doc : List PageDesc) (s : ℚ) (req : ScaleReq) (page : PageDesc) : ℚ :=
  if s = 0 ∧ req.width = 0 ∧ req.scale = 0 then
    calculateScaleForDocument doc s
  else
    scalePage page.rotation page.bounds (some req)

/-- The kinds of rasterization available on a `RasterRequest` (`rasterType`). -/
inductive RasterType
  | image
  | svg
deriving DecidableEq, Repr

/-- The Go error values a reply can carry. `badPage` is `ErrBadPage`;
`closedDoc` is the "Tried to process a page from a closed document" error;
`cloneFailed` is "failed to clone context"; `svgFetchFailed` is
"failed to fetch the SVG data". There is no distinct cancellation error on the
reply channel in the source. -/
inductive GoErr
  | badPage
  | closedDoc
  | cloneFailed
  | svgFetchFailed
deriving DecidableEq, Repr

/-- A value sent on a request's `ReplyChan`: either an error reply or one of
the two success payloads. -/
inductive Reply
  | err (e : GoErr)
  | image
  | svg
deriving DecidableEq, Repr

/-- Outcome environment for one `runCancellableOperation` call:
`hasCtx` is whether `req.ctx` is non-nil, `ctxErr` whether `req.ctx.Err()` is
non-nil once the native call has returned (the cancellation/deadline fired),
and `cookieErrors` the value of `cookie.errors` after the call. -/
structure CancelEnv where
  hasCtx : Bool
  ctxErr : Bool
  cookieErrors : ℕ
deriving DecidableEq, Repr

/-- The error condition checked at the end of `runCancellableOperation`:
a context is present and either `ctx.Err() != nil` or `cookie.errors > 0`. -/
def cancelFault (e : CancelEnv) : Bool :=
  e.hasCtx && (e.ctxErr || decide (0 < e.cookieErrors))

/-- The watcher goroutine inside `runCancellableOperation` sets
`cookie.abort = 1` exactly when a context is present and its cancellation
fires, which makes the native call return early. -/
def cookieAbortSet (e : CancelEnv) : Bool :=
  e.hasCtx && e.ctxErr

/-- Embeds faster_raster.go `(*RasterRequest).runCancellableOperation`:
returns the error result of the call together with the list of replies the
function itself sends (via `sendErrorReply`). With no context the native
function simply runs and no error is reported; on a fault the function sends
`ErrBadPage` on the reply channel and returns it. -/
def runCancellableOperation (e : CancelEnv) : Option GoErr × List Reply :=
  if cancelFault e then (some GoErr.badPage, [Reply.err GoErr.badPage]) else (none, [])

/-- Events of the per-request pipeline: native resource acquisition/release,
native drawing calls, reply attempts and waitgroup operations. `loadPage`
records the zero-based index handed to the native `load_page`. -/
inductive Ev
  | cloneCtx
  | dropCtx
  | loadPage (idx : ℤ)
  | dropPage
  | newList
  | dropList
  | newPixmap
  | dropPixmap
  | runPage
  | runDisplayList
  | reply (r : Reply)
  | wgAdd
  | wgDone
deriving DecidableEq, Repr

/-- Whether an event is a reply attempt. The exported synchronous interface
gives every request a fresh buffered reply channel of capacity one, so a
single attempt is always delivered into the slot. -/
def Ev.isReply : Ev → Bool
  | .reply _ => true
  | _ => false

/-- Whether an event releases one of the three native resources the background
render owns (cloned context, display list, pixmap). -/
def Ev.isNativeDrop : Ev → Bool
  | .dropCtx => true
  | .dropList => true
  | .dropPixmap => true
  | _ => false

/-- Number of reply attempts in a trace. -/
def countReplies (t : List Ev) : ℕ :=
  t.countP Ev.isReply

/-- Embeds faster_raster.go `(*Rasterizer).backgroundRender`: replay the
display list on a draw device under `runCancellableOperation`, reply with the
image on success (the fault path already replied inside
`runCancellableOperation`), then run the deferred cleanup — drop the pixmap,
the display list and the cloned context, and signal the waitgroup. The
goroutine shares no mutable state with the command loop, so its event list is
the complete trace of the task. -/
def backgroundRender (c : CancelEnv) : List Ev :=
  (Ev.runDisplayList :: (runCancellableOperation c).2.map Ev.reply
    ++ (if (runCancellableOperation c).1.isSome then [] else [Ev.reply Reply.image]))
  ++ [Ev.dropPixmap, Ev.dropList, Ev.dropCtx, Ev.wgDone]

/-- Embeds faster_raster.go `(*Rasterizer).renderToSVG`: run the page on an
SVG device under `runCancellableOperation`; on success reply with the SVG
bytes unless the buffer came back empty, in which case an error reply is sent.
The deferred block drops the loaded page and then the cloned context (the SVG
buffer and output, internal to this routine, are not modelled as events). -/
def renderToSVG (c : CancelEnv) (svgLenZero : Bool) : List Ev :=
  (Ev.runPage :: (runCancellableOperation c).2.map Ev.reply
    ++ (if (runCancellableOperation c).1.isSome then []
        else if svgLenZero then [Ev.reply (Reply.err GoErr.svgFetchFailed)]
        else [Ev.reply Reply.svg]))
  ++ [Ev.dropPage, Ev.dropCtx]

/-- The rasterizer state `processOne` consults: whether the document has been
closed (`quitChan`, `Ctx` or `Document` cleared) and the page count captured
at `Run` time. -/
structure RState where
  closed : Bool
  docPageCount : ℤ
deriving DecidableEq, Repr

/-- A rasterization request as `processOne` sees it. -/
structure ReqM where
  pageNumber : ℤ
  width : ℤ
  scale : ℚ
  rasterType : RasterType
deriving DecidableEq, Repr

/-- Outcomes of the fallible native steps a single request can hit:
whether `fz_clone_context` and `load_page` succeed, the cancellation
environments of the three `runCancellableOperation` call sites, and whether
the SVG buffer comes back empty. -/
structure NativeEnv where
  cloneOk : Bool
  loadOk : Bool
  listCancel : CancelEnv
  svgCancel : CancelEnv
  bgCancel : CancelEnv
  svgLenZero : Bool
deriving DecidableEq, Repr

/-- Embeds faster_raster.go `(*Rasterizer).processOne` together with the
continuation it spawns: check closed document, page range and context clone
(each an immediate error reply and return), load the page (index
`pageNumber - 1`), then either run the synchronous SVG path or capture a
display list under `runCancellableOperation` and hand off to
`backgroundRender`. The spawned goroutine's events are appended, so the list
is the complete per-request event trace. -/
def processOne (st : RState) (req : ReqM) (env : NativeEnv) : List Ev :=
  if st.closed then [Ev.reply (Reply.err GoErr.closedDoc)]
  else if req.pageNumber < 1 ∨ req.pageNumber > st.docPageCount then
    [Ev.reply (Reply.err GoErr.badPage)]
  else if !env.cloneOk then [Ev.reply (Reply.err GoErr.cloneFailed)]
  else
    Ev.cloneCtx ::
      if !env.loadOk then [Ev.dropCtx, Ev.reply (Reply.err GoErr.badPage)]
      else
        Ev.loadPage (req.pageNumber - 1) ::
          match req.rasterType with
          | RasterType.svg => renderToSVG env.svgCancel env.svgLenZero
          | RasterType.image =>
              Ev.newList :: Ev.runPage :: (runCancellableOperation env.listCancel).2.map Ev.reply
                ++ Ev.dropPage ::
                  (if (runCancellableOperation env.listCancel).1.isSome then
                    [Ev.dropList, Ev.dropCtx]
                  else
                    Ev.newPixmap :: Ev.wgAdd :: backgroundRender env.bgCancel)

/-- The index handed to the native `load_page` by the `Rasterizer` pipeline
for a request's `PageNumber` (faster_raster.go: `C.int(req.PageNumber-1)`). -/
def generatePageLoadIndex (pageNumber : ℤ) : ℤ :=
  pageNumber - 1

/-- The index handed to `pdf_load_page` by the one-shot `SaveToPNG` path:
main.go copies its `page` argument into `input.page` unchanged and main.c
passes `input.page` straight to `pdf_load_page`. -/
def saveToPNGLoadIndex (page : ℤ) : ℤ :=
  page

/-- The possible states of `r.quitChan`: a live (non-nil, open) channel, a
channel that `Stop` has closed but that `mainEventLoop` has not yet observed,
and the nil field after the event loop clears it. -/
inductive QuitChan
  | live
  | closedCh
  | cleared
deriving DecidableEq, Repr

/-- One `Stop()` call (faster_raster.go lines 319-324): if the field is
non-nil, `close` it. Closing an already-closed Go channel panics, modelled as
`none`. -/
def stopStep : QuitChan → Option QuitChan
  | QuitChan.live => some QuitChan.closedCh
  | QuitChan.closedCh => none
  | QuitChan.cleared => some QuitChan.cleared

/-- The event loop's shutdown reaction (`case <-r.quitChan`): the receive
fires once the channel is closed, and the loop sets `r.quitChan = nil`.
While the channel is still open the branch cannot fire. -/
def loopQuitStep : QuitChan → QuitChan
  | QuitChan.closedCh => QuitChan.cleared
  | s => s

/-- An interleaving of caller `Stop()` calls with the event loop's shutdown
step. -/
inductive StopAction
  | stop
  | loopQuit
deriving DecidableEq, Repr

/-- Run an interleaving; `none` means the Go runtime panicked. -/
def runStops : List StopAction → QuitChan → Option QuitChan
  | [], s => some s
  | StopAction.stop :: rest, s => (stopStep s).bind (runStops rest)
  | StopAction.loopQuit :: rest, s => runStops rest (loopQuitStep s)

/-- Native entrypoints the main.go wrappers can cross into. -/
inductive NativeCall
  | savePng
  | countPages
deriving DecidableEq, Repr

/-- Outcome environment for one `SaveToPNG`/`PageCount` call: whether the
payload reader and output writer arguments are nil, and whether the read, the
native call and the output write fail. -/
structure CallEnv where
  payloadNil : Bool
  outputNil : Bool
  readFails : Bool
  nativeFails : Bool
  writeFails : Bool
deriving DecidableEq, Repr

/-- The (non-nil) errors the main.go wrappers return. -/
inductive CallErr
  | nilPayload
  | nilOutput
  | readFailed
  | nativeFailure
  | writeFailed
deriving DecidableEq, Repr

/-- Whether a result is an error (a non-nil Go error return). -/
def isErr {α : Type} : Except CallErr α → Bool
  | Except.error _ => true
  | Except.ok _ => false

/-- Embeds main.go `SaveToPNG`: nil checks on the payload reader and the
output writer come first, then `io.ReadAll`, and only then the single cgo
call `C.save_to_png`; its error or the output write error is propagated.
The second component lists the native calls made. -/
def SaveToPNG (e : CallEnv) : Except CallErr Unit × List NativeCall :=
  if e.payloadNil then (Except.error CallErr.nilPayload, [])
  else if e.outputNil then (Except.error CallErr.nilOutput, [])
  else if e.readFails then (Except.error CallErr.readFailed, [])
  else if e.nativeFails then (Except.error CallErr.nativeFailure, [NativeCall.savePng])
  else if e.writeFails then (Except.error CallErr.writeFailed, [NativeCall.savePng])
  else (Except.ok (), [NativeCall.savePng])

/-- Embeds main.go `PageCount`: nil check on the payload reader, then
`io.ReadAll`, then the single cgo call `C.page_count`. -/
def PageCount (e : CallEnv) : Except CallErr Unit × List NativeCall :=
  if e.payloadNil then (Except.error CallErr.nilPayload, [])
  else if e.readFails then (Except.error CallErr.readFailed, [])
  else if e.nativeFails then (Except.error CallErr.nativeFailure, [NativeCall.countPages])
  else (Except.ok (), [NativeCall.countPages])

/-! ### Helper lemmas -/

theorem countReplies_backgroundRender (c : CancelEnv) :
    countReplies (backgroundRender c) = 1 := by
  cases h : cancelFault c <;>
    simp [backgroundRender, runCancellableOperation, h, countReplies, Ev.isReply]

theorem countReplies_renderToSVG (c : CancelEnv) (z : Bool) :
    countReplies (renderToSVG c z) = 1 := by
  cases h : cancelFault c <;> cases z <;>
    simp [renderToSVG, runCancellableOperation, h, countReplies, Ev.isReply]

/-! ### Claims -/

/-- Claim C1: every request consumed by the actor's command loop produces
exactly one reply attempt on its reply slot, across all code paths — the
synchronous error exits of `processOne` (closed document, bad page, clone
failure, load failure), the synchronous SVG path, and the background bitmap
render including its cancellation and fault exits; never zero on a completed
path and never two. -/
theorem processOne_exactly_one_reply (st : RState) (req : ReqM) (env : NativeEnv) :
    countReplies (processOne st req env) = 1 := by
  rcases req with ⟨p, w, s, ty⟩
  by_cases h1 : st.closed
  · simp [processOne, h1, countReplies, Ev.isReply]
  by_cases h2 : p < 1 ∨ p > st.docPageCount
  · simp [processOne, h1, h2, countReplies, Ev.isReply]
  cases h3 : env.cloneOk
  · simp [processOne, h1, h2, h3, countReplies, Ev.isReply]
  cases h4 : env.loadOk
  · simp [processOne, h1, h2, h3, h4, countReplies, Ev.isReply]
  cases ty
  · cases h5 : cancelFault env.listCancel
    · have hbg := countReplies_backgroundRender env.bgCancel
      simp [processOne, h1, h2, h3, h4, h5, runCancellableOperation,
        countReplies, Ev.isReply, List.countP_append] at hbg ⊢
      exact hbg
    · simp [processOne, h1, h2, h3, h4, h5, runCancellableOperation,
        countReplies, Ev.isReply, List.countP_append]
  · have hsvg := countReplies_renderToSVG env.svgCancel env.svgLenZero
    simp [processOne, h1, h2, h3, h4, countReplies, Ev.isReply,
      List.countP_append] at hsvg ⊢
    exact hsvg

/-- Claim C2, counterexample: with a cancellation that fires during the
background replay (`hasCtx = true`, `ctxErr = true`), the background render
task delivers a reply carrying the `ErrBadPage` value — so the reply is not a
distinguished cancelled/timed-out kind, and BadPage is delivered from the
background task, contradicting the claim as stated. -/
theorem background_cancel_delivers_badpage :
    Ev.reply (Reply.err GoErr.badPage) ∈ backgroundRender ⟨true, true, 0⟩ ∧
    (runCancellableOperation ⟨true, true, 0⟩).1 = some GoErr.badPage := by
  decide

/-- Claim C2 as amended: if the request's cancellation fires while the native
replay runs, the watcher sets the abort flag (so the native call returns
early) and the background task delivers exactly one reply — but that reply
carries the `ErrBadPage` error value rather than a distinguished
cancelled/timed-out kind, so BadPage is also delivered from the background
render task. -/
theorem background_cancel_reply_classification (c : CancelEnv)
    (h : c.hasCtx = true) (hc : c.ctxErr = true) :
    cookieAbortSet c = true ∧
    (backgroundRender c).filter Ev.isReply = [Ev.reply (Reply.err GoErr.badPage)] := by
  have hf : cancelFault c = true := by simp [cancelFault, h, hc]
  refine ⟨by simp [cookieAbortSet, h, hc], ?_⟩
  simp [backgroundRender, runCancellableOperation, hf, Ev.isReply]

/-- Witness for the amended claim C2 at a concrete cancelled environment. -/
theorem background_cancel_reply_classification_witness :
    cookieAbortSet ⟨true, true, 0⟩ = true ∧
    (backgroundRender ⟨true, true, 0⟩).filter Ev.isReply =
      [Ev.reply (Reply.err GoErr.badPage)] :=
  background_cancel_reply_classification ⟨true, true, 0⟩ rfl rfl

/-- Claim C3: for every request with non-zero width the resolved scale factor
is `width / bounds.x1` — in the Go `scalePage` and in the C `save_to_png`
block alike, regardless of any scale also supplied — so the transformed
bounding box has `x1 = width` exactly (the artifact width then matches up to
the native `fz_round_rect` rounding). -/
theorem width_precedence (rotation : ℤ) (bounds : FzRect) (w : ℤ) (s : ℚ)
    (hw : w ≠ 0) (hx : bounds.x1 ≠ 0) :
    scalePage rotation bounds (some ⟨w, s⟩) = (w : ℚ) / bounds.x1 ∧
    saveToPngScaleFactor rotation w s bounds = (w : ℚ) / bounds.x1 ∧
    (transformRectScale (scalePage rotation bounds (some ⟨w, s⟩)) bounds).x1 = (w : ℚ) := by
  have h1 : scalePage rotation bounds (some ⟨w, s⟩) = (w : ℚ) / bounds.x1 := by
    simp [scalePage, hw]
  refine ⟨h1, by simp [saveToPngScaleFactor, hw], ?_⟩
  rw [h1]
  show bounds.x1 * ((w : ℚ) / bounds.x1) = (w : ℚ)
  rw [mul_comm, div_mul_cancel₀ _ hx]

/-- Witness for claim C3: width 1024 with scale 1.1 on a 612-point-wide page
resolves to 1024/612 and the transformed width is exactly 1024. -/
theorem width_precedence_witness :
    scalePage 0 ⟨0, 612, 0, 792⟩ (some ⟨1024, 11 / 10⟩) = (1024 : ℚ) / 612 ∧
    saveToPngScaleFactor 0 1024 (11 / 10) ⟨0, 612, 0, 792⟩ = (1024 : ℚ) / 612 ∧
    (transformRectScale (scalePage 0 ⟨0, 612, 0, 792⟩ (some ⟨1024, 11 / 10⟩))
      ⟨0, 612, 0, 792⟩).x1 = (1024 : ℚ) :=
  width_precedence 0 ⟨0, 612, 0, 792⟩ 1024 (11 / 10) (by decide) (by norm_num)

/-- Claim C4: with width = 0 and scale = 0, the resolved scale is
`LandscapeScale = 1.0` when the un-transformed box is wider than tall and the
rotation is 0 or 180; `PortraitScale = 1.5` when it is wider than tall with
any other rotation; and `PortraitScale = 1.5` when the box is taller than
wide or square, regardless of rotation — in both the Go `scalePage` and the C
`save_to_png` resolution. -/
theorem default_scale_heuristic (rotation : ℤ) (bounds : FzRect) :
    (bounds.y1 - bounds.y0 < bounds.x1 - bounds.x0 →
      ((rotation = 0 ∨ rotation = 180) →
        scalePage rotation bounds (some ⟨0, 0⟩) = LandscapeScale ∧
        saveToPngScaleFactor rotation 0 0 bounds = LandscapeScale) ∧
      (¬(rotation = 0 ∨ rotation = 180) →
        scalePage rotation bounds (some ⟨0, 0⟩) = PortraitScale ∧
        saveToPngScaleFactor rotation 0 0 bounds = PortraitScale)) ∧
    (¬(bounds.y1 - bounds.y0 < bounds.x1 - bounds.x0) →
      scalePage rotation bounds (some ⟨0, 0⟩) = PortraitScale ∧
      saveToPngScaleFactor rotation 0 0 bounds = PortraitScale) := by
  refine ⟨fun hwide => ⟨fun hr => ?_, fun hr => ?_⟩, fun hnarrow => ?_⟩
  · rcases hr with rfl | rfl <;>
      simp [scalePage, saveToPngScaleFactor, hwide, gt_iff_lt, LandscapeScale]
  · push_neg at hr
    simp [scalePage, saveToPngScaleFactor, hwide, hr.1, hr.2, gt_iff_lt, PortraitScale]
  · simp [scalePage, saveToPngScaleFactor, hnarrow, gt_iff_lt, PortraitScale]

/-- Witness for claim C4 on an 842×595 landscape box (rotations 0 and 90) and
a 595×842 portrait box. -/
theorem default_scale_heuristic_witness :
    scalePage 0 ⟨0, 842, 0, 595⟩ (some ⟨0, 0⟩) = LandscapeScale ∧
    scalePage 90 ⟨0, 842, 0, 595⟩ (some ⟨0, 0⟩) = PortraitScale ∧
    scalePage 90 ⟨0, 595, 0, 842⟩ (some ⟨0, 0⟩) = PortraitScale :=
  ⟨(((default_scale_heuristic 0 ⟨0, 842, 0, 595⟩).1 (by norm_num)).1 (Or.inl rfl)).1,
   (((default_scale_heuristic 90 ⟨0, 842, 0, 595⟩).1 (by norm_num)).2 (by decide)).1,
   ((default_scale_heuristic 90 ⟨0, 595, 0, 842⟩).2 (by norm_num)).1⟩

/-- Claim C5: on a running rasterizer over an N-page document, a request for
page 0 or page N+1 gets the distinguished BadPage reply synchronously and
immediately (the trace is exactly that single reply — no context clone and no
render happens), while a request for a page in 1..N is never rejected as
BadPage and produces an image artifact. -/
theorem bad_page_boundary (st : RState) (req : ReqM) (env : NativeEnv)
    (hclosed : st.closed = false) (hclone : env.cloneOk = true)
    (hload : env.loadOk = true) (hlist : cancelFault env.listCancel = false)
    (hbg : cancelFault env.bgCancel = false)
    (hty : req.rasterType = RasterType.image) :
    ((req.pageNumber = 0 ∨ req.pageNumber = st.docPageCount + 1) →
      processOne st req env = [Ev.reply (Reply.err GoErr.badPage)]) ∧
    (1 ≤ req.pageNumber → req.pageNumber ≤ st.docPageCount →
      Ev.reply (Reply.err GoErr.badPage) ∉ processOne st req env ∧
      Ev.reply Reply.image ∈ processOne st req env) := by
  constructor
  · rintro (hp | hp)
    · simp [processOne, hclosed, hp]
    · have h : st.docPageCount + 1 > st.docPageCount := by omega
      simp [processOne, hclosed, hp, h]
  · intro h1 h2
    have hguard : ¬(req.pageNumber < 1 ∨ req.pageNumber > st.docPageCount) := by omega
    simp [processOne, hclosed, hclone, hload, hguard, hty, backgroundRender,
      runCancellableOperation, hlist, hbg]

/-- Witness for claim C5 on a 3-page document: page 0 and page 4 get the
BadPage reply, page 2 renders an image and is not rejected. -/
theorem bad_page_boundary_witness :
    processOne ⟨false, 3⟩ ⟨0, 0, 0, RasterType.image⟩
        ⟨true, true, ⟨false, false, 0⟩, ⟨false, false, 0⟩, ⟨false, false, 0⟩, false⟩ =
      [Ev.reply (Reply.err GoErr.badPage)] ∧
    processOne ⟨false, 3⟩ ⟨4, 0, 0, RasterType.image⟩
        ⟨true, true, ⟨false, false, 0⟩, ⟨false, false, 0⟩, ⟨false, false, 0⟩, false⟩ =
      [Ev.reply (Reply.err GoErr.badPage)] ∧
    (Ev.reply (Reply.err GoErr.badPage) ∉
        processOne ⟨false, 3⟩ ⟨2, 0, 0, RasterType.image⟩
          ⟨true, true, ⟨false, false, 0⟩, ⟨false, false, 0⟩, ⟨false, false, 0⟩, false⟩ ∧
      Ev.reply Reply.image ∈
        processOne ⟨false, 3⟩ ⟨2, 0, 0, RasterType.image⟩
          ⟨true, true, ⟨false, false, 0⟩, ⟨false, false, 0⟩, ⟨false, false, 0⟩, false⟩) :=
  ⟨(bad_page_boundary ⟨false, 3⟩ ⟨0, 0, 0, RasterType.image⟩
      ⟨true, true, ⟨false, false, 0⟩, ⟨false, false, 0⟩, ⟨false, false, 0⟩, false⟩
      rfl rfl rfl rfl rfl rfl).1 (Or.inl rfl),
   (bad_page_boundary ⟨false, 3⟩ ⟨4, 0, 0, RasterType.image⟩
      ⟨true, true, ⟨false, false, 0⟩, ⟨false, false, 0⟩, ⟨false, false, 0⟩, false⟩
      rfl rfl rfl rfl rfl rfl).1 (Or.inr (by decide)),
   (bad_page_boundary ⟨false, 3⟩ ⟨2, 0, 0, RasterType.image⟩
      ⟨true, true, ⟨false, false, 0⟩, ⟨false, false, 0⟩, ⟨false, false, 0⟩, false⟩
      rfl rfl rfl rfl rfl rfl).2 (by decide) (by decide)⟩

/-- Claim C6, counterexample: on a document whose first page is landscape and
second page is portrait, the first default-scale request runs the document
scan and fixes the cache at `LandscapeScale`, but the very next default-scale
request on the same document recomputes the scale from its own page and
overwrites the cache with `PortraitScale` — the cached value is not reused. -/
theorem scale_cache_not_reused :
    nextScaleFactor [⟨⟨0, 842, 0, 595⟩, 0⟩, ⟨⟨0, 595, 0, 842⟩, 0⟩] 0 ⟨0, 0⟩
        ⟨⟨0, 595, 0, 842⟩, 0⟩ = LandscapeScale ∧
    nextScaleFactor [⟨⟨0, 842, 0, 595⟩, 0⟩, ⟨⟨0, 595, 0, 842⟩, 0⟩] LandscapeScale ⟨0, 0⟩
        ⟨⟨0, 595, 0, 842⟩, 0⟩ = PortraitScale ∧
    PortraitScale ≠ LandscapeScale := by
  refine ⟨?_, ?_, by norm_num [PortraitScale, LandscapeScale]⟩ <;>
    norm_num [nextScaleFactor, calculateScaleForDocument, scalePage,
      LandscapeScale, PortraitScale]

/-- Claim C6 as amended: the document-wide scan runs exactly when no scale has
been cached yet and the request has no explicit width or scale, and it stops
early at the first landscape page; but once any scale is cached, every
request — default-scale ones included — recomputes the scale from its own
page and overwrites the cache, instead of reusing the cached value. -/
theorem scale_cache_recomputed (doc : List PageDesc) (s : ℚ) (req : ScaleReq)
    (page p0 : PageDesc) (rest : List PageDesc)
    (hfirst : scalePage p0.rotation p0.bounds none = LandscapeScale)
    (hs : s ≠ 0) :
    nextScaleFactor doc 0 ⟨0, 0⟩ page = calculateScaleForDocument doc 0 ∧
    calculateScaleForDocument (p0 :: rest) s = LandscapeScale ∧
    nextScaleFactor doc s req page = scalePage page.rotation page.bounds (some req) := by
  refine ⟨by simp [nextScaleFactor], ?_, by simp [nextScaleFactor, hs]⟩
  simp [calculateScaleForDocument, hfirst]

/-- Witness for the amended claim C6 at concrete pages. -/
theorem scale_cache_recomputed_witness :
    nextScaleFactor [⟨⟨0, 595, 0, 842⟩, 0⟩] 0 ⟨0, 0⟩ ⟨⟨0, 595, 0, 842⟩, 0⟩ =
      calculateScaleForDocument [⟨⟨0, 595, 0, 842⟩, 0⟩] 0 ∧
    calculateScaleForDocument [⟨⟨0, 842, 0, 595⟩, 0⟩] LandscapeScale = LandscapeScale ∧
    nextScaleFactor [⟨⟨0, 595, 0, 842⟩, 0⟩] LandscapeScale ⟨0, 0⟩ ⟨⟨0, 595, 0, 842⟩, 0⟩ =
      scalePage 0 ⟨0, 595, 0, 842⟩ (some ⟨0, 0⟩) :=
  scale_cache_recomputed [⟨⟨0, 595, 0, 842⟩, 0⟩] LandscapeScale ⟨0, 0⟩
    ⟨⟨0, 595, 0, 842⟩, 0⟩ ⟨⟨0, 842, 0, 595⟩, 0⟩ []
    (by norm_num [scalePage, LandscapeScale]) (by norm_num [LandscapeScale])

/-- Claim C7, counterexample: the background render's release order is not
"cloned context, then display list, then pixmap" — on the success path the
filtered release trace differs from that order. -/
theorem background_release_order_not_ctx_first :
    (backgroundRender ⟨false, false, 0⟩).filter Ev.isNativeDrop ≠
      [Ev.dropCtx, Ev.dropList, Ev.dropPixmap] := by
  decide

/-- Claim C7 as amended: on every exit of the background render (success,
native fault or cancellation) the pixmap, the display list and the cloned
context are each released exactly once, in that order — pixmap first, then
display list, then cloned context — and the actor's shutdown waitgroup is
signalled exactly once, as the final action. -/
theorem background_release_order (c : CancelEnv) :
    (backgroundRender c).filter Ev.isNativeDrop =
      [Ev.dropPixmap, Ev.dropList, Ev.dropCtx] ∧
    (backgroundRender c).count Ev.wgDone = 1 ∧
    (backgroundRender c).getLast? = some Ev.wgDone := by
  cases h : cancelFault c <;>
    simp [backgroundRender, runCancellableOperation, h, Ev.isNativeDrop]

/-- Claim C8 (code bug): two `Stop()` calls where the second runs before
`mainEventLoop` has cleared `r.quitChan` close an already-closed channel and
panic (`none`); only when the event loop's shutdown step runs in between is
the second call the intended no-op. -/
theorem double_stop_panics :
    runStops [StopAction.stop, StopAction.stop] QuitChan.live = none ∧
    runStops [StopAction.stop, StopAction.loopQuit, StopAction.stop] QuitChan.live =
      some QuitChan.cleared := by
  decide

/-- Claim C9, counterexample: the one-shot `SaveToPNG` hands its page argument
to the native zero-based `pdf_load_page` unchanged, not decremented — so it
is not a 1-based interface: for page 1 the native load receives 1, not 0. -/
theorem saveToPNG_page_zero_based :
    saveToPNGLoadIndex 1 = 1 ∧ saveToPNGLoadIndex 1 ≠ generatePageLoadIndex 1 := by
  decide

/-- Claim C9 as amended: the `Rasterizer` pipeline is 1-based — `processOne`
loads native page index `pageNumber - 1` — while `SaveToPNG` passes its page
argument to the native zero-based load unchanged, so it is 0-based. -/
theorem page_indexing (st : RState) (req : ReqM) (env : NativeEnv) (p : ℤ)
    (hclosed : st.closed = false) (hclone : env.cloneOk = true)
    (hload : env.loadOk = true)
    (h1 : 1 ≤ req.pageNumber) (h2 : req.pageNumber ≤ st.docPageCount) :
    Ev.loadPage (req.pageNumber - 1) ∈ processOne st req env ∧
    generatePageLoadIndex req.pageNumber = req.pageNumber - 1 ∧
    saveToPNGLoadIndex p = p := by
  refine ⟨?_, rfl, rfl⟩
  have hguard : ¬(req.pageNumber < 1 ∨ req.pageNumber > st.docPageCount) := by omega
  simp [processOne, hclosed, hclone, hload, hguard]

/-- Witness for the amended claim C9: page 2 of a 3-page document loads native
index 1 in the actor pipeline, while `SaveToPNG` page 5 loads native index 5. -/
theorem page_indexing_witness :
    Ev.loadPage (2 - 1) ∈ processOne ⟨false, 3⟩ ⟨2, 0, 0, RasterType.image⟩
      ⟨true, true, ⟨false, false, 0⟩, ⟨false, false, 0⟩, ⟨false, false, 0⟩, false⟩ ∧
    generatePageLoadIndex 2 = 2 - 1 ∧
    saveToPNGLoadIndex 5 = 5 :=
  page_indexing ⟨false, 3⟩ ⟨2, 0, 0, RasterType.image⟩
    ⟨true, true, ⟨false, false, 0⟩, ⟨false, false, 0⟩, ⟨false, false, 0⟩, false⟩ 5
    rfl rfl rfl (by decide) (by decide)

/-- Claim C10: a `SaveToPNG` call with a nil payload reader or nil output
writer, and a `PageCount` call with a nil payload reader, return a non-nil
error immediately and make no native call (no native state is allocated). -/
theorem nil_argument_checks (e : CallEnv)
    (hp : e.payloadNil = true ∨ e.outputNil = true) :
    (isErr (SaveToPNG e).1 = true ∧ (SaveToPNG e).2 = []) ∧
    (e.payloadNil = true → isErr (PageCount e).1 = true ∧ (PageCount e).2 = []) := by
  rcases e with ⟨p, o, r, n, w⟩
  constructor
  · rcases hp with hp | hp
    · simp only at hp
      subst hp
      simp [SaveToPNG, isErr]
    · simp only at hp
      subst hp
      cases p <;> simp [SaveToPNG, isErr]
  · intro hpp
    simp only at hpp
    subst hpp
    simp [PageCount, isErr]

/-- Witness for claim C10: a nil payload reader yields immediate errors and an
empty native-call list for both wrappers. -/
theorem nil_argument_checks_witness :
    (isErr (SaveToPNG ⟨true, false, false, false, false⟩).1 = true ∧
      (SaveToPNG ⟨true, false, false, false, false⟩).2 = []) ∧
    ((⟨true, false, false, false, false⟩ : CallEnv).payloadNil = true →
      isErr (PageCount ⟨true, false, false, false, false⟩).1 = true ∧
      (PageCount ⟨true, false, false, false, false⟩).2 = []) :=
  nil_argument_checks ⟨true, false, false, false, false⟩ (Or.inl rfl)

end Lazypdf
